import Mathlib

/-!
Verification development for the SegScript transcript query tool
(`src/main.py`).  The Python source is shallowly embedded below:

* floating-point values (`float`) are modelled as rationals `ℚ`; every
  numeric value appearing in the claims is exactly representable;
* Python's fallible operations (numeric parsing, tuple unpacking, file
  opening, attribute access) are modelled with `Option` / `Except`,
  where `Except.error` stands for a raised exception;
* the per-identifier cache file `~/.segscript/<video_id>.json` is
  modelled as an explicit `Option TranscriptJson` value threaded through
  the stateful functions;
* strings are processed through their character lists so that every
  definition reduces in the kernel.
-/

namespace SegScript

/-- One caption fragment, mirroring the `Snippet` dataclass and the
snippet objects (`text` / `start` / `duration`) of the cached JSON. -/
structure Snippet where
  text : String
  start : ℚ
  duration : ℚ
deriving Repr, DecidableEq

/-- The JSON record written by `save_transcript` and read back by
`query_transcript` / `get_raw_transcripts`: a dict with keys
`video_id`, `language`, `language_code`, `is_generated`, `snippets` and
`transcript` (the latter is the spec's `full_text`). -/
structure TranscriptJson where
  video_id : String
  language : String
  language_code : String
  is_generated : Bool
  snippets : List Snippet
  transcript : String
deriving Repr, DecidableEq

/-- A fetched transcript as returned by the out-of-scope acquisition
collaborator (`YouTubeTranscriptApi.fetch`). -/
structure FetchedTranscript where
  video_id : String
  language : String
  language_code : String
  is_generated : Bool
  snippets : List Snippet
deriving Repr, DecidableEq

/-- A time window `[start_seconds, end_seconds]`, the spec's `TimeWindow`
data model (spec §3). -/
structure TimeWindow where
  start_seconds : ℚ
  end_seconds : ℚ
deriving Repr, DecidableEq

/-- Models Python's `str.split(sep)` for a one-character separator,
acting on the character list: every occurrence of `sep` starts a new
chunk and empty chunks are kept, so the result always has one more
chunk than there are separators (`"".split(sep) == [""]`). -/
def splitCharList (sep : Char) : List Char → List (List Char)
  | [] => [[]]
  | c :: cs =>
    match splitCharList sep cs with
    | [] => if c = sep then [[], []] else [[c]]
    | x :: xs => if c = sep then [] :: x :: xs else (c :: x) :: xs

/-- Numeric value of a list of ASCII digits, most significant first. -/
def digitsVal (cs : List Char) : ℕ :=
  cs.foldl (fun n c => n * 10 + (c.toNat - 48)) 0

/-- Models Python's built-in `int(s)` on the literal forms relevant to
this program: an optional `+`/`-` sign followed by one or more ASCII
digits.  Any other input yields `none`, modelling the `ValueError` that
`int` raises. -/
def pyIntChars (cs : List Char) : Option ℤ :=
  match cs with
  | '-' :: rest =>
    if !rest.isEmpty && rest.all Char.isDigit then some (-(digitsVal rest : ℤ)) else none
  | '+' :: rest =>
    if !rest.isEmpty && rest.all Char.isDigit then some (digitsVal rest) else none
  | _ =>
    if !cs.isEmpty && cs.all Char.isDigit then some (digitsVal cs) else none

/-- Unsigned part of `pyFloatChars`: digits optionally split by a single
`.`, with at least one digit overall (so `"1."` and `".5"` parse but
`"."` does not). -/
def pyFloatMag (cs : List Char) : Option ℚ :=
  match splitCharList '.' cs with
  | [intPart] =>
    if !intPart.isEmpty && intPart.all Char.isDigit then some (digitsVal intPart) else none
  | [intPart, fracPart] =>
    if (!intPart.isEmpty || !fracPart.isEmpty)
        && intPart.all Char.isDigit && fracPart.all Char.isDigit then
      some ((digitsVal intPart : ℚ) + (digitsVal fracPart : ℚ) / 10 ^ fracPart.length)
    else none
  | _ => none

/-- Models Python's built-in `float(s)` on plain decimal literals: an
optional `+`/`-` sign followed by `pyFloatMag`.  Any other input yields
`none`, modelling the `ValueError` that `float` raises. -/
def pyFloatChars (cs : List Char) : Option ℚ :=
  match cs with
  | '-' :: rest => (pyFloatMag rest).map (fun q => -q)
  | '+' :: rest => pyFloatMag rest
  | _ => pyFloatMag cs

/-- Embedding of `parse_time_to_seconds` (src/main.py, lines 28-47):
split the string on `":"`; two parts are `MM:SS` (`int` minutes,
`float` seconds), three parts are `HH:MM:SS` (`int` hours and minutes,
`float` seconds); any other count raises
`ValueError("Invalid time format. Use MM:SS or HH:MM:SS")`.  A part
rejected by `int`/`float` raises `ValueError` as well; a raised
exception is modelled as `Except.error`. -/
def parse_time_to_seconds (time_str : String) : Except String ℚ :=
  match splitCharList ':' time_str.data with
  | [minutes, seconds] =>
    match pyIntChars minutes, pyFloatChars seconds with
    | some m, some s => .ok ((m : ℚ) * 60 + s)
    | _, _ => .error ("ValueError: invalid numeric literal in " ++ time_str)
  | [hours, minutes, seconds] =>
    match pyIntChars hours, pyIntChars minutes, pyFloatChars seconds with
    | some h, some m, some s => .ok ((h : ℚ) * 3600 + (m : ℚ) * 60 + s)
    | _, _, _ => .error ("ValueError: invalid numeric literal in " ++ time_str)
  | _ => .error "ValueError: Invalid time format. Use MM:SS or HH:MM:SS"

/-- Embedding of the range-parsing block of `query_transcript`
(src/main.py, lines 125-128): split the range string on `";"`, unpack
exactly two parts (a different count raises `ValueError`), and parse
each part with `parse_time_to_seconds`. -/
def parse_time_range (time_range : String) : Except String (ℚ × ℚ) :=
  match splitCharList ';' time_range.data with
  | [startPart, endPart] => do
    let start_seconds ← parse_time_to_seconds (String.mk startPart)
    let end_seconds ← parse_time_to_seconds (String.mk endPart)
    return (start_seconds, end_seconds)
  | _ => .error "ValueError: cannot unpack time_range into start and end"

/-- The overlap condition of src/main.py, line 139:
`snippet_start <= end_seconds and snippet_end >= start_seconds` where
`snippet_end = snippet_start + snippet_duration` (lines 135-136). -/
def included (start_seconds end_seconds : ℚ) (s : Snippet) : Bool :=
  decide (s.start ≤ end_seconds) && decide (s.start + s.duration ≥ start_seconds)

/-- Embedding of the filtering loop of `query_transcript`
(src/main.py, lines 133-140): start from the empty list and append each
snippet that satisfies the overlap condition, in iteration order. -/
def filter_snippets (snippets : List Snippet) (start_seconds end_seconds : ℚ) :
    List Snippet :=
  snippets.foldl
    (fun filtered s =>
      if included start_seconds end_seconds s then filtered ++ [s] else filtered)
    []

/-- Models Python's `sep.join(parts)`: the parts in order with `sep`
between consecutive parts, nothing prepended or appended. -/
def pyJoin (sep : String) : List String → String
  | [] => ""
  | [x] => x
  | x :: y :: xs => x ++ sep ++ pyJoin sep (y :: xs)

/-- Embedding of the range query proper (src/main.py, lines 133-145):
filter the snippets by the overlap condition and join the texts of the
kept snippets with a single space. -/
def range_query (snippets : List Snippet) (start_seconds end_seconds : ℚ) : String :=
  pyJoin " " ((filter_snippets snippets start_seconds end_seconds).map Snippet.text)

/-- The error string returned by `query_transcript` for a malformed
range (src/main.py, line 130); `\x27` is an apostrophe. -/
def invalid_range_msg : String :=
  "Error: Invalid time range format. Use \x27start_time;end_time\x27 (e.g., \x2710:00;20:00\x27)"

/-- Embedding of `query_transcript` after the cached record has been
loaded (src/main.py, lines 115-145): an empty `time_range` (falsy in
Python) returns the stored `transcript` string directly; otherwise the
range is parsed — any `ValueError` is caught and converted into
`invalid_range_msg` — and the range query runs over the snippets. -/
def query_transcript_loaded (data : TranscriptJson) (time_range : String) : String :=
  if time_range.data.isEmpty then
    data.transcript
  else
    match parse_time_range time_range with
    | .error _ => invalid_range_msg
    | .ok (start_seconds, end_seconds) =>
      range_query data.snippets start_seconds end_seconds

/-- Embedding of the accumulation loop of `save_transcript`
(src/main.py, lines 71-74): `raw_transcript = raw_transcript + " " +
snippet.text`, starting from the empty string, so a separator is
prepended before every snippet text including the first. -/
def raw_transcript (snippets : List Snippet) : String :=
  snippets.foldl (fun raw s => raw ++ " " ++ s.text) ""

/-- The dict written to the cache file by `save_transcript`
(src/main.py, lines 76-86). -/
def transcript_dict (t : FetchedTranscript) : TranscriptJson :=
  { video_id := t.video_id
    language := t.language
    language_code := t.language_code
    is_generated := t.is_generated
    snippets := t.snippets
    transcript := raw_transcript t.snippets }

/-- Embedding of `save_transcript` (src/main.py, lines 50-92).  The
network call is modelled by its outcome `fetchResult`; the cache file
for the video id is modelled by `stored`.  On an acquisition exception
the function returns `1` before any directory or file is touched, so
the stored state is unchanged; on success it writes the full record and
returns `0`. -/
def save_transcript (fetchResult : Except String FetchedTranscript)
    (stored : Option TranscriptJson) : ℕ × Option TranscriptJson :=
  match fetchResult with
  | .error _ => (1, stored)
  | .ok t => (0, some (transcript_dict t))

/-- Models `open(transcript_file)` + `json.load` on the cache-file
state: a missing file raises `FileNotFoundError`. -/
def open_cached (stored : Option TranscriptJson) : Except String TranscriptJson :=
  match stored with
  | some data => .ok data
  | none => .error "FileNotFoundError"

/-- Embedding of `query_transcript` (src/main.py, lines 95-145)
including its ensure-available preamble: if the cache file is missing,
`save_transcript` is run and a non-zero status short-circuits with the
fetch-error string; then the cache file is opened and the loaded query
logic runs.  The result pairs the returned string with the final
cache-file state; an `Except.error` would be an uncaught exception. -/
def query_transcript (fetchResult : Except String FetchedTranscript)
    (stored : Option TranscriptJson) (time_range : String) :
    Except String (String × Option TranscriptJson) :=
  match stored with
  | none =>
    match save_transcript fetchResult none with
    | (0, stored') =>
      (open_cached stored').map
        (fun data => (query_transcript_loaded data time_range, stored'))
    | (_, stored') => .ok ("Error: Failed to fetch transcript!", stored')
  | some _ =>
    (open_cached stored).map
      (fun data => (query_transcript_loaded data time_range, stored))

/-- Models Python attribute access `d.<name>` on a value produced by
`json.load`.  `json.load` returns a builtin `dict`, whose JSON keys are
reachable only by subscripting (`d["key"]`), never as attributes, so
this access raises `AttributeError` for every key name; `\x27` is an
apostrophe. -/
def dict_getattr (_data : TranscriptJson) (key : String) : Except String String :=
  .error ("AttributeError: \x27dict\x27 object has no attribute \x27" ++ key ++ "\x27")

/-- Embedding of `get_raw_transcripts` (src/main.py, lines 148-167): a
missing cache file raises `FileNotFoundError`, which is caught (a
message is printed and `None` is returned); when the file exists the
code evaluates `transcript_data.transcript` — attribute access on the
dict returned by `json.load` — which raises `AttributeError`, and no
handler catches it. -/
def get_raw_transcripts (stored : Option TranscriptJson) :
    Except String (Option String) :=
  match stored with
  | none => .ok none
  | some data => (dict_getattr data "transcript").map some

/-- Concrete snippets used by the witness theorems (the end-to-end
scenario of spec §8). -/
def sample_snippets : List Snippet :=
  [⟨"hello", 0, 5⟩, ⟨"world", 4, 3⟩, ⟨"bye", 20, 2⟩]

/-- A concrete cached record used by the witness theorems. -/
def sample_data : TranscriptJson :=
  { video_id := "dQw4w9WgXcQ"
    language := "English"
    language_code := "en"
    is_generated := true
    snippets := sample_snippets
    transcript := raw_transcript sample_snippets }

/-- Right fold concatenating a list of strings, used to state what the
accumulation loops compute. -/
def concat_list (l : List String) : String :=
  l.foldr (fun s r => s ++ r) ""

end SegScript

namespace SegScript

theorem concat_list_nil : concat_list [] = "" := rfl

theorem concat_list_cons (x : String) (xs : List String) :
    concat_list (x :: xs) = x ++ concat_list xs := rfl

theorem pyJoin_nil (sep : String) : pyJoin sep [] = "" := rfl

theorem pyJoin_single (sep x : String) : pyJoin sep [x] = x := rfl

theorem pyJoin_cons₂ (sep x y : String) (xs : List String) :
    pyJoin sep (x :: y :: xs) = x ++ sep ++ pyJoin sep (y :: xs) := rfl

theorem filter_snippets_eq_filter (snippets : List Snippet) (a b : ℚ) :
    filter_snippets snippets a b = snippets.filter (included a b) := by
  have key : ∀ (l acc : List Snippet),
      l.foldl (fun filtered s => if included a b s then filtered ++ [s] else filtered) acc
        = acc ++ l.filter (included a b) := by
    intro l
    induction l with
    | nil => intro acc; simp
    | cons s l ih =>
      intro acc
      by_cases h : included a b s = true
      · simp [List.filter_cons, h, ih]
      · simp [List.filter_cons, h, ih]
  simpa [filter_snippets] using key snippets []

theorem raw_transcript_loop (l : List Snippet) :
    ∀ acc : String,
      l.foldl (fun raw s => raw ++ " " ++ s.text) acc
        = acc ++ concat_list (l.map (fun s => " " ++ s.text)) := by
  induction l with
  | nil => intro acc; simp [concat_list_nil, String.append_empty]
  | cons s l ih =>
    intro acc
    rw [List.foldl_cons, ih]
    simp [concat_list_cons, String.append_assoc]

theorem raw_transcript_eq (snippets : List Snippet) :
    raw_transcript snippets = concat_list (snippets.map (fun s => " " ++ s.text)) := by
  simpa [raw_transcript, String.empty_append] using
    raw_transcript_loop snippets ""

theorem concat_space_eq_pyJoin (x : String) (xs : List String) :
    concat_list ((x :: xs).map (fun t => " " ++ t)) = " " ++ pyJoin " " (x :: xs) := by
  induction xs generalizing x with
  | nil => simp [concat_list_cons, concat_list_nil, pyJoin_single, String.append_empty]
  | cons y ys ih =>
    simp only [List.map_cons] at ih ⊢
    rw [concat_list_cons, ih y, pyJoin_cons₂, String.append_assoc, String.append_assoc]

/-- Claim C1: with a present window, the range query returns exactly the
snippets `f` with `f.start ≤ window.end_seconds` and
`f.start + f.duration ≥ window.start_seconds` (the `included`
condition), in original order, joined by a single space; an empty
snippet list, or a window overlapping no snippet, yields `""`. -/
theorem claim_C1 (snippets : List Snippet) (w : TimeWindow) :
    range_query snippets w.start_seconds w.end_seconds
        = pyJoin " "
            ((snippets.filter (included w.start_seconds w.end_seconds)).map Snippet.text)
      ∧ (snippets = [] → range_query snippets w.start_seconds w.end_seconds = "")
      ∧ ((∀ f ∈ snippets, included w.start_seconds w.end_seconds f = false) →
          range_query snippets w.start_seconds w.end_seconds = "") := by
  refine ⟨?_, ?_, ?_⟩
  · simp [range_query, filter_snippets_eq_filter]
  · rintro rfl; rfl
  · intro h
    have hnil : snippets.filter (included w.start_seconds w.end_seconds) = [] := by
      rw [List.filter_eq_nil_iff]
      intro a ha
      simp [h a ha]
    simp [range_query, filter_snippets_eq_filter, hnil, pyJoin_nil]

/-- Witness for claim C1, instantiating both edge-case hypotheses: the
empty snippet list, and a single snippet (`"bye"`, spanning
`[20, 22]`) entirely outside the window `[3, 6]`. -/
theorem claim_C1_witness :
    (([] : List Snippet) = [])
      ∧ range_query [] (3 : ℚ) 6 = ""
      ∧ (∀ f ∈ [Snippet.mk "bye" 20 2], included (3 : ℚ) 6 f = false)
      ∧ range_query [Snippet.mk "bye" 20 2] 3 6 = "" := by
  have h : ∀ f ∈ [Snippet.mk "bye" 20 2], included (3 : ℚ) 6 f = false := by
    intro f hf
    rw [List.mem_singleton] at hf
    subst hf
    norm_num [included]
  exact ⟨rfl, (claim_C1 [] ⟨3, 6⟩).2.1 rfl, h, (claim_C1 [⟨"bye", 20, 2⟩] ⟨3, 6⟩).2.2 h⟩

end SegScript

namespace SegScript

/-- Claim C2: on a string with exactly 2 colon-separated parts the
parser returns `minutes*60 + seconds` (minutes an integer, seconds a
rational, fractional seconds permitted); with exactly 3 parts it
returns `hours*3600 + minutes*60 + seconds`; no upper bound on minutes
or hours is imposed, as the listed concrete values show. -/
theorem claim_C2 :
    (∀ (s : String) (mp sp : List Char) (m : ℤ) (sec : ℚ),
        splitCharList ':' s.data = [mp, sp] →
        pyIntChars mp = some m → pyFloatChars sp = some sec →
        parse_time_to_seconds s = .ok ((m : ℚ) * 60 + sec))
      ∧ (∀ (s : String) (hp mp sp : List Char) (hr m : ℤ) (sec : ℚ),
        splitCharList ':' s.data = [hp, mp, sp] →
        pyIntChars hp = some hr → pyIntChars mp = some m →
        pyFloatChars sp = some sec →
        parse_time_to_seconds s = .ok ((hr : ℚ) * 3600 + (m : ℚ) * 60 + sec))
      ∧ parse_time_to_seconds "10:00" = .ok 600
      ∧ parse_time_to_seconds "1:10:00" = .ok 4200
      ∧ parse_time_to_seconds "0:00" = .ok 0
      ∧ parse_time_to_seconds "90:00" = .ok 5400 := by
  refine ⟨?_, ?_, ?_, ?_, ?_, ?_⟩
  · intro s mp sp m sec hsplit hint hfloat
    simp [parse_time_to_seconds, hsplit, hint, hfloat]
  · intro s hp mp sp hr m sec hsplit hhr hint hfloat
    simp [parse_time_to_seconds, hsplit, hhr, hint, hfloat]
  · rw [show parse_time_to_seconds "10:00"
        = .ok (((10 : ℕ) : ℤ) * 60 + ((0 : ℕ) : ℚ)) from rfl]
    norm_num
  · rw [show parse_time_to_seconds "1:10:00"
        = .ok (((1 : ℕ) : ℤ) * 3600 + ((10 : ℕ) : ℤ) * 60 + ((0 : ℕ) : ℚ)) from rfl]
    norm_num
  · rw [show parse_time_to_seconds "0:00"
        = .ok (((0 : ℕ) : ℤ) * 60 + ((0 : ℕ) : ℚ)) from rfl]
    norm_num
  · rw [show parse_time_to_seconds "90:00"
        = .ok (((90 : ℕ) : ℤ) * 60 + ((0 : ℕ) : ℚ)) from rfl]
    norm_num

/-- Witness for claim C2, instantiating the universal `MM:SS` clause at
the concrete string `"2:30"`. -/
theorem claim_C2_witness :
    splitCharList ':' "2:30".data = [['2'], ['3', '0']]
      ∧ pyIntChars ['2'] = some ((2 : ℕ) : ℤ)
      ∧ pyFloatChars ['3', '0'] = some ((30 : ℕ) : ℚ)
      ∧ parse_time_to_seconds "2:30" = .ok ((((2 : ℕ) : ℤ) : ℚ) * 60 + ((30 : ℕ) : ℚ)) :=
  ⟨rfl, rfl, rfl,
    claim_C2.1 "2:30" ['2'] ['3', '0'] ((2 : ℕ) : ℤ) ((30 : ℕ) : ℚ) rfl rfl rfl⟩

/-- Claim C3: a time string whose colon-separated part count is not 2
or 3, or any of whose parts fails numeric parsing, makes the parser
raise `ValueError` (the spec's `FormatError`); in particular `"abc"`
and `"1:2:3:4"` both fail. -/
theorem claim_C3 :
    (∀ s : String,
        (splitCharList ':' s.data).length ≠ 2 →
        (splitCharList ':' s.data).length ≠ 3 →
        ∃ e, parse_time_to_seconds s = .error e)
      ∧ (∀ (s : String) (mp sp : List Char),
        splitCharList ':' s.data = [mp, sp] →
        pyIntChars mp = none ∨ pyFloatChars sp = none →
        ∃ e, parse_time_to_seconds s = .error e)
      ∧ (∀ (s : String) (hp mp sp : List Char),
        splitCharList ':' s.data = [hp, mp, sp] →
        pyIntChars hp = none ∨ pyIntChars mp = none ∨ pyFloatChars sp = none →
        ∃ e, parse_time_to_seconds s = .error e)
      ∧ (∃ e, parse_time_to_seconds "abc" = .error e)
      ∧ (∃ e, parse_time_to_seconds "1:2:3:4" = .error e) := by
  refine ⟨?_, ?_, ?_, ⟨_, rfl⟩, ⟨_, rfl⟩⟩
  · intro s h2 h3
    rcases hs : splitCharList ':' s.data with _ | ⟨a, _ | ⟨b, _ | ⟨c, _ | ⟨d, tl⟩⟩⟩⟩
    · exact ⟨"ValueError: Invalid time format. Use MM:SS or HH:MM:SS",
        by simp [parse_time_to_seconds, hs]⟩
    · exact ⟨"ValueError: Invalid time format. Use MM:SS or HH:MM:SS",
        by simp [parse_time_to_seconds, hs]⟩
    · exact absurd (by rw [hs]; rfl) h2
    · exact absurd (by rw [hs]; rfl) h3
    · exact ⟨"ValueError: Invalid time format. Use MM:SS or HH:MM:SS",
        by simp [parse_time_to_seconds, hs]⟩
  · intro s mp sp hsplit hnone
    cases hi : pyIntChars mp <;> cases hf : pyFloatChars sp
    · exact ⟨"ValueError: invalid numeric literal in " ++ s,
        by simp [parse_time_to_seconds, hsplit, hi, hf]⟩
    · exact ⟨"ValueError: invalid numeric literal in " ++ s,
        by simp [parse_time_to_seconds, hsplit, hi, hf]⟩
    · exact ⟨"ValueError: invalid numeric literal in " ++ s,
        by simp [parse_time_to_seconds, hsplit, hi, hf]⟩
    · rcases hnone with h | h
      · rw [hi] at h; exact absurd h (by simp)
      · rw [hf] at h; exact absurd h (by simp)
  · intro s hp mp sp hsplit hnone
    cases hh : pyIntChars hp <;> cases hm : pyIntChars mp <;> cases hf : pyFloatChars sp
    all_goals try simp [hh, hm, hf] at hnone
    all_goals
      exact ⟨"ValueError: invalid numeric literal in " ++ s,
        by simp [parse_time_to_seconds, hsplit, hh, hm, hf]⟩

/-- Witness for claim C3, instantiating the part-count clause at
`"1:2:3:4"` and the failing-part clause at `"7:xy"`. -/
theorem claim_C3_witness :
    (splitCharList ':' "1:2:3:4".data).length ≠ 2
      ∧ (splitCharList ':' "1:2:3:4".data).length ≠ 3
      ∧ (∃ e, parse_time_to_seconds "1:2:3:4" = .error e)
      ∧ splitCharList ':' "7:xy".data = [['7'], ['x', 'y']]
      ∧ pyFloatChars ['x', 'y'] = none
      ∧ (∃ e, parse_time_to_seconds "7:xy" = .error e) :=
  ⟨by decide, by decide, claim_C3.1 "1:2:3:4" (by decide) (by decide), rfl, rfl,
    claim_C3.2.1 "7:xy" ['7'] ['x', 'y'] rfl (Or.inr rfl)⟩

end SegScript

namespace SegScript

/-- Claim C4: with an absent (empty) time window the query returns the
persisted `transcript` field unchanged — a direct return of the stored
value, for every record `data`, whatever its `snippets` are (so no
recomputation from the fragments takes place). -/
theorem claim_C4 (data : TranscriptJson) (fetchResult : Except String FetchedTranscript) :
    query_transcript_loaded data "" = data.transcript
      ∧ query_transcript fetchResult (some data) "" = .ok (data.transcript, some data) :=
  ⟨rfl, rfl⟩

/-- Claim C5: for every malformed range string (nonempty, and rejected
by the range parser) the query returns the human-readable
`invalid_range_msg` through the normal string return channel. -/
theorem claim_C5 (data : TranscriptJson) (time_range : String)
    (hne : time_range.data ≠ [])
    (herr : ∃ e, parse_time_range time_range = .error e) :
    query_transcript_loaded data time_range = invalid_range_msg := by
  obtain ⟨e, he⟩ := herr
  have hb : time_range.data.isEmpty = false := by
    cases h : time_range.data
    · exact absurd h hne
    · rfl
  simp [query_transcript_loaded, hb, he]

/-- Witness for claim C5 at the malformed range string `"garbage"` and a
concrete cached record. -/
theorem claim_C5_witness :
    "garbage".data ≠ []
      ∧ (∃ e, parse_time_range "garbage" = .error e)
      ∧ query_transcript_loaded sample_data "garbage" = invalid_range_msg :=
  ⟨by decide,
    ⟨"ValueError: cannot unpack time_range into start and end", rfl⟩,
    claim_C5 sample_data "garbage" (by decide)
      ⟨"ValueError: cannot unpack time_range into start and end", rfl⟩⟩

/-- Claim C6 is FALSE of the code: when a cached record exists,
`get_raw_transcripts` evaluates `transcript_data.transcript` on the
dict returned by `json.load`, raising an uncaught `AttributeError`
instead of returning the persisted full text; only the missing-file
branch behaves as claimed (returns `None`). -/
theorem claim_C6_bug :
    get_raw_transcripts (some sample_data)
        = .error "AttributeError: \x27dict\x27 object has no attribute \x27transcript\x27"
      ∧ get_raw_transcripts none = .ok none :=
  ⟨rfl, rfl⟩

/-- Claim C7: the `transcript` string persisted at acquisition time is
the accumulation that prepends a single space before every snippet
text, including the first, so for a non-empty snippet sequence it is a
leading space followed by the plain space-join of the texts. -/
theorem claim_C7 (t : FetchedTranscript) :
    (transcript_dict t).transcript
        = concat_list (t.snippets.map (fun s => " " ++ s.text))
      ∧ (t.snippets ≠ [] →
        (transcript_dict t).transcript
          = " " ++ pyJoin " " (t.snippets.map Snippet.text)) := by
  constructor
  · exact raw_transcript_eq t.snippets
  · intro hne
    cases hsl : t.snippets with
    | nil => exact absurd hsl hne
    | cons s l =>
      have h1 : (transcript_dict t).transcript = raw_transcript (s :: l) := by
        rw [show (transcript_dict t).transcript = raw_transcript t.snippets from rfl, hsl]
      have h2 : (s :: l).map (fun sn => " " ++ sn.text)
          = (s.text :: l.map Snippet.text).map (fun txt => " " ++ txt) := by
        simp
      rw [h1, raw_transcript_eq, h2, concat_space_eq_pyJoin]
      simp

/-- Witness for claim C7 at a concrete fetched transcript with the
three sample snippets. -/
theorem claim_C7_witness :
    sample_snippets ≠ []
      ∧ (transcript_dict
            ⟨"dQw4w9WgXcQ", "English", "en", true, sample_snippets⟩).transcript
          = " " ++ pyJoin " " (sample_snippets.map Snippet.text) :=
  ⟨by simp [sample_snippets],
    (claim_C7 ⟨"dQw4w9WgXcQ", "English", "en", true, sample_snippets⟩).2
      (by simp [sample_snippets])⟩

/-- Claim C8: when a cached record exists the ensure-available path of
`query_transcript` never consults the acquisition collaborator (the
result is independent of `fetchResult`) and uses the stored record
as-is with the state unchanged; when the record is absent and the
collaborator fails, the failure is reported as an error string and no
partial state is created (`save_transcript` leaves the stored state
untouched on its failure path). -/
theorem claim_C8 :
    (∀ (f g : Except String FetchedTranscript) (d : TranscriptJson) (tr : String),
        query_transcript f (some d) tr = query_transcript g (some d) tr)
      ∧ (∀ (f : Except String FetchedTranscript) (d : TranscriptJson) (tr : String),
        query_transcript f (some d) tr = .ok (query_transcript_loaded d tr, some d))
      ∧ (∀ (e tr : String),
        query_transcript (.error e) none tr
          = .ok ("Error: Failed to fetch transcript!", none))
      ∧ (∀ (e : String) (st : Option TranscriptJson),
        save_transcript (.error e) st = (1, st)) :=
  ⟨fun _ _ _ _ => rfl, fun _ _ _ => rfl, fun _ _ => rfl, fun _ _ => rfl⟩

/-- Claim C9: the range query is a pure, deterministic function of the
snippet list and the window; in this embedding of the filtering and
joining code (which reads no other state) two invocations on the same
inputs are definitionally the same string. -/
theorem claim_C9 (snippets : List Snippet) (w : TimeWindow) :
    range_query snippets w.start_seconds w.end_seconds
      = range_query snippets w.start_seconds w.end_seconds := rfl

/-- Claim C10: the timecode parser validates neither component ranges
nor signs: a seconds component of 60 or more is accepted
(`parse("0:99") = 99`), negative components are accepted and can make
the result negative (`parse("-1:30") = -30`), and a parsed time window
can lie wholly on the negative timeline. -/
theorem claim_C10 :
    parse_time_to_seconds "0:99" = .ok 99
      ∧ parse_time_to_seconds "-1:30" = .ok (-30)
      ∧ parse_time_range "-2:00;-1:30" = .ok (-120, -30)
      ∧ (-120 : ℚ) < 0 ∧ (-30 : ℚ) < 0 := by
  refine ⟨?_, ?_, ?_, by norm_num, by norm_num⟩
  · rw [show parse_time_to_seconds "0:99"
        = .ok (((0 : ℕ) : ℤ) * 60 + ((99 : ℕ) : ℚ)) from rfl]
    norm_num
  · rw [show parse_time_to_seconds "-1:30"
        = .ok ((-(1 : ℕ) : ℤ) * 60 + ((30 : ℕ) : ℚ)) from rfl]
    norm_num
  · rw [show parse_time_range "-2:00;-1:30"
        = .ok (((-(2 : ℕ) : ℤ) : ℚ) * 60 + ((0 : ℕ) : ℚ),
               ((-(1 : ℕ) : ℤ) : ℚ) * 60 + ((30 : ℕ) : ℚ)) from rfl]
    norm_num

end SegScript
